import Mathlib

/-!
Shallow embedding of the credential-lifecycle core of a multi-tenant
authentication service written in Go: the entities, the SQL-backed
repository operations, the JWT service, the authentication use cases
(login, refresh-token rotation, logout, user disable) and the
authorization middleware, together with theorems settling the spec's
claims about them.

Conventions of the embedding:
* `time.Time` values are Unix seconds (`Time := Int`); each Go function's
  internal `time.Now()` calls are modelled by a single `now` parameter.
* Go `error` values are `Err`; `errors.New s` is `Err.msg s` and
  driver-level database errors are `Err.storage s`.
* Stateful repository calls are explicit state passing over `Store`;
  use-case operations return their result together with the final store,
  so that partial effects of failed operations are visible.
* `crypto/rand` token generation and `bcrypt` comparison are external
  inputs: the freshly generated token value and the hash-comparison
  function are parameters.
-/

namespace AuthService

/-- Unix time in seconds; `time.Time` comparisons use integer order. -/
abbrev Time := Int

/-- Go `error` values: `msg s` is `errors.New s`; `storage s` is a
database-driver error surfaced unchanged through a repository call. -/
inductive Err where
  | msg (s : String)
  | storage (s : String)
deriving DecidableEq, Repr

/-- `entity.User` (id, tenant_id, email, password_hash, status);
timestamps are irrelevant to every claim and omitted. -/
structure User where
  id : String
  tenantID : String
  email : String
  passwordHash : String
  status : String
deriving DecidableEq, Repr

/-- `entity.Tenant`. -/
structure Tenant where
  id : String
  name : String
  status : String
deriving DecidableEq, Repr

/-- `entity.Role`. -/
structure Role where
  id : String
  name : String
  scope : String
deriving DecidableEq, Repr

/-- `entity.Permission`. -/
structure Permission where
  id : String
  code : String
  description : String
deriving DecidableEq, Repr

/-- `entity.RefreshToken`: the `refresh_tokens` row
(token PRIMARY KEY, user_id, tenant_id, expires_at, revoked_at NULL, created_at). -/
structure RefreshToken where
  token : String
  userID : String
  tenantID : String
  expiresAt : Time
  revokedAt : Option Time
  createdAt : Time
deriving DecidableEq, Repr

/-- `entity.AuditLog`; the random uuid id and free-form metadata are omitted. -/
structure AuditLog where
  actorID : String
  tenantID : String
  action : String
  target : String
  createdAt : Time
deriving DecidableEq, Repr

/-- The relational store backing the repositories: `users`, `tenants`,
`roles`, `user_roles`, `permissions`, `role_permissions`,
`refresh_tokens` and `audit_logs` tables as lists of rows. -/
structure Store where
  users : List User
  tenants : List Tenant
  roles : List Role
  userRoles : List (String × String)
  permissions : List Permission
  rolePermissions : List (String × String)
  refreshTokens : List RefreshToken
  auditLogs : List AuditLog
deriving DecidableEq, Repr

/-! ## Repository layer (`internal/repository/postgres.go`, `permission.go`) -/

/-- `UserRepositoryImpl.GetUserByEmail`: SELECT by email AND tenant_id;
`sql.ErrNoRows` becomes `errors.New "user not found"`. -/
def getUserByEmail (s : Store) (email tenantID : String) : Except Err User :=
  match s.users.find? (fun u => u.email == email && u.tenantID == tenantID) with
  | some u => .ok u
  | none => .error (.msg "user not found")

/-- `UserRepositoryImpl.GetUserByID`. -/
def getUserByID (s : Store) (id : String) : Except Err User :=
  match s.users.find? (fun u => u.id == id) with
  | some u => .ok u
  | none => .error (.msg "user not found")

/-- `TenantRepositoryImpl.GetTenantByID`. -/
def getTenantByID (s : Store) (id : String) : Except Err Tenant :=
  match s.tenants.find? (fun t => t.id == id) with
  | some t => .ok t
  | none => .error (.msg "tenant not found")

/-- `RoleRepositoryImpl.GetRolesByUserID`: the join of `roles` with
`user_roles` on role_id, filtered by user_id. -/
def getRolesByUserID (s : Store) (userID : String) : List Role :=
  (s.userRoles.filter (fun ur => ur.1 == userID)).filterMap
    (fun ur => s.roles.find? (fun r => r.id == ur.2))

/-- `PermissionRepositoryImpl.GetPermissionsByRoleID`: the join of
`permissions` with `role_permissions` on permission_id, filtered by role_id. -/
def getPermissionsByRoleID (s : Store) (roleID : String) : List Permission :=
  (s.rolePermissions.filter (fun rp => rp.1 == roleID)).filterMap
    (fun rp => s.permissions.find? (fun p => p.id == rp.2))

/-- `RefreshTokenRepositoryImpl.GetRefreshToken`: SELECT by token value;
`sql.ErrNoRows` becomes `errors.New "refresh token not found"`. -/
def getRefreshToken (s : Store) (token : String) : Except Err RefreshToken :=
  match s.refreshTokens.find? (fun rt => rt.token == token) with
  | some rt => .ok rt
  | none => .error (.msg "refresh token not found")

/-- `RefreshTokenRepositoryImpl.SaveRefreshToken`: INSERT of a new row.
`token` is the table's PRIMARY KEY, so inserting a value already present
fails with a driver-level uniqueness error; `fault` injects any other
driver failure of the INSERT (connection loss, constraint, ...). -/
def saveRefreshToken (s : Store) (rt : RefreshToken) (fault : Bool) :
    Except Err Store :=
  if fault then .error (.storage "insert refresh token failed")
  else if s.refreshTokens.any (fun r => r.token == rt.token) then
    .error (.storage "duplicate key value violates unique constraint")
  else .ok { s with refreshTokens := s.refreshTokens ++ [rt] }

/-- `RefreshTokenRepositoryImpl.RevokeRefreshToken`: UPDATE setting
revoked_at = now WHERE token = $2 (no revoked_at IS NULL guard), then
`errors.New "refresh token not found"` when zero rows were affected. -/
def revokeRefreshToken (s : Store) (token : String) (now : Time) :
    Except Err Store :=
  if s.refreshTokens.any (fun rt => rt.token == token) then
    let updated := s.refreshTokens.map
      (fun rt => if rt.token == token then { rt with revokedAt := some now } else rt)
    .ok { s with refreshTokens := updated }
  else .error (.msg "refresh token not found")

/-- `RefreshTokenRepositoryImpl.RevokeAllRefreshTokensByUserID`: UPDATE
setting revoked_at = now WHERE user_id = $2 AND revoked_at IS NULL;
affecting zero rows is not an error. -/
def revokeAllRefreshTokensByUserID (s : Store) (userID : String) (now : Time) :
    Store :=
  let updated := s.refreshTokens.map
    (fun rt => if rt.userID == userID && rt.revokedAt == none
               then { rt with revokedAt := some now } else rt)
  { s with refreshTokens := updated }

/-- `UserRepositoryImpl.UpdateUserStatus`: UPDATE by id, error when zero
rows were affected. -/
def updateUserStatus (s : Store) (id status : String) : Except Err Store :=
  if s.users.any (fun u => u.id == id) then
    let updated := s.users.map
      (fun u => if u.id == id then { u with status := status } else u)
    .ok { s with users := updated }
  else .error (.msg "user not found")

/-- `AuditLogRepositoryImpl.CreateAuditLog` as invoked by the use cases,
which discard its error: when the INSERT fails (`fault`) the row is simply
absent; the store is otherwise extended. -/
def createAuditLog (s : Store) (entry : AuditLog) (fault : Bool) : Store :=
  if fault then s else { s with auditLogs := s.auditLogs ++ [entry] }

/-! ## JWT service (`pkg/service/jwt_service.go`) -/

/-- `entity.AccessTokenClaims` as returned by `VerifyAccessToken` and
embedded by `GenerateAccessToken`. -/
structure AccessTokenClaims where
  sub : String
  tenantID : String
  role : String
  permissions : List String
  isSuperAdmin : Bool
  expiresAt : Time
  issuedAt : Time
  issuer : String
deriving DecidableEq, Repr

/-- Token-service configuration (`config.TokenConfig`) together with the
orchestrator's refresh lifetime (`refreshTokenExpiry`, seconds). -/
structure Config where
  accessTokenLifeTime : Int
  applicationName : String
  refreshTokenExpiry : Int
deriving DecidableEq, Repr

/-- `jWTServiceImpl.GenerateAccessToken`: the claims embedded into the
signed token — primary role is the first assigned role (empty string when
none), the super-admin flag is set when any role is named `SUPER_ADMIN`
or `super-admin`. HMAC signing itself cannot fail and is abstracted away:
the issued token is modelled by its claim set. -/
def generateAccessToken (user : User) (roles : List Role) (tenant : Tenant)
    (permissions : List String) (now : Time) (cfg : Config) : AccessTokenClaims :=
  let primaryRole := match roles with
    | [] => ""
    | r :: _ => r.name
  let isSuper := roles.any (fun r => r.name == "SUPER_ADMIN" || r.name == "super-admin")
  { sub := user.id
    tenantID := tenant.id
    role := primaryRole
    permissions := permissions
    isSuperAdmin := isSuper
    expiresAt := now + cfg.accessTokenLifeTime
    issuedAt := now
    issuer := cfg.applicationName }

/-- A decoded JSON claim value, as the `jwt.MapClaims` map holds it
after JSON unmarshalling (`string`, `float64`, `bool`, `[]interface\x7b\x7d`). -/
inductive Json where
  | str (s : String)
  | num (x : Int)
  | bool (b : Bool)
  | arr (xs : List Json)
  | null

/-- The signing algorithm named in a presented token's header: `hmac`
covers the `*jwt.SigningMethodHMAC` family (HS256/HS384/HS512); `other`
is every non-HMAC method. -/
inductive SigAlg where
  | hmac (name : String)
  | other (name : String)
deriving DecidableEq, Repr

/-- A presented token after base64/JSON decoding: header algorithm, the
claims map, and whether its signature verifies under the server key
(the HMAC computation itself is abstracted to this bit). -/
structure ParsedToken where
  alg : SigAlg
  claims : List (String × Json)
  sigOK : Bool

/-- `claims[k]` map lookup. -/
def lookupClaim (claims : List (String × Json)) (k : String) : Option Json :=
  (claims.find? (fun kv => kv.1 == k)).map (fun kv => kv.2)

/-- The behavior of `jwt.ParseWithClaims` with the service's key
function: the key function rejects any method outside the
`*jwt.SigningMethodHMAC` family (so only the family membership is
checked, not equality with the configured method); the library then
checks the signature and validates the registered `exp` claim when
present (a token is not yet expired while `now < exp`; a mistyped `exp`
is a parse error; a missing `exp` is accepted by the default validator).
All failures surface wrapped as `token parse error`. -/
def parseWithClaims (tok : ParsedToken) (now : Time) :
    Except Err (List (String × Json)) :=
  match tok.alg with
  | .other name => .error (.msg ("token parse error: unexpected signing method: " ++ name))
  | .hmac _ =>
    if tok.sigOK then
      match lookupClaim tok.claims "exp" with
      | some (.num e) =>
        if now < e then .ok tok.claims
        else .error (.msg "token parse error: token has invalid claims: token is expired")
      | some _ => .error (.msg "token parse error: token has invalid claims: exp is invalid")
      | none => .ok tok.claims
    else .error (.msg "token parse error: signature is invalid")

/-- `jWTServiceImpl.VerifyAccessToken`: parse, then extract the claim
fields. `sub`, `tenant_id` and `exp` are type-asserted with an error on
failure; `role`, `permissions`, `is_super_admin`, `iat` and `iss` use
Go's comma-ok assertion with the error ignored, silently defaulting to
`""`, `[]`, `false`, `0`, `""` when missing or mistyped; non-string
elements of `permissions` are skipped. -/
def verifyAccessToken (tok : ParsedToken) (now : Time) :
    Except Err AccessTokenClaims :=
  match parseWithClaims tok now with
  | .error e => .error e
  | .ok claims =>
    let roleStr := match lookupClaim claims "role" with
      | some (.str s) => s
      | _ => ""
    let perms := match lookupClaim claims "permissions" with
      | some (.arr xs) => xs.filterMap (fun v => match v with
          | .str s => some s
          | _ => none)
      | _ => []
    let isSuper := match lookupClaim claims "is_super_admin" with
      | some (.bool b) => b
      | _ => false
    match lookupClaim claims "sub" with
    | some (.str sub) =>
      match lookupClaim claims "tenant_id" with
      | some (.str tenantID) =>
        match lookupClaim claims "exp" with
        | some (.num e) =>
          let iat := match lookupClaim claims "iat" with
            | some (.num x) => x
            | _ => 0
          let iss := match lookupClaim claims "iss" with
            | some (.str s) => s
            | _ => ""
          .ok { sub := sub, tenantID := tenantID, role := roleStr,
                permissions := perms, isSuperAdmin := isSuper,
                expiresAt := e, issuedAt := iat, issuer := iss }
        | _ => .error (.msg "invalid exp claim")
      | _ => .error (.msg "invalid tenant_id claim")
    | _ => .error (.msg "invalid sub claim")

/-! ## Authentication use cases (`internal/usecase/auth.go`, `user.go`)

Each operation returns its Go result together with the final store, so
that the effects of partially completed operations stay observable. The
defensive nil-dependency guards at the top of `Login` are omitted: the
service is modelled as constructed by `NewAuthUseCase` with every
dependency present (including a non-nil `permissionRepo`). -/

/-- `dto.LoginRequestBody`. -/
structure LoginRequestBody where
  email : String
  password : String
  tenantID : String
deriving DecidableEq, Repr

/-- `dto.LoginResponse`; the access token is represented by its claims. -/
structure LoginResponse where
  accessToken : AccessTokenClaims
  refreshToken : String
  expiresIn : Int
deriving DecidableEq, Repr

/-- Injected repository-call failures for the calls whose Go error source
is the database driver rather than the store contents. -/
structure Faults where
  saveRefreshToken : Bool
  createAuditLog : Bool
deriving DecidableEq, Repr

/-- No injected failure. -/
def Faults.none : Faults := ⟨false, false⟩

/-- The permission-aggregation loop shared verbatim by `Login` and
`RefreshToken`: starting from the empty slice, append the `Code` of every
permission of every role, in role order. -/
def aggregatePermissions (s : Store) (roles : List Role) : List String :=
  roles.flatMap (fun r => (getPermissionsByRoleID s r.id).map (fun p => p.code))

/-- `authUseCase.Login`. `hashMatch hash password` models
`bcrypt.CompareHashAndPassword` succeeding; `newToken` is the
`generateRefreshToken` output (32 random bytes, hex-encoded). -/
def login (s : Store) (cfg : Config) (hashMatch : String → String → Bool)
    (req : LoginRequestBody) (now : Time) (newToken : String) (f : Faults) :
    Except Err LoginResponse × Store :=
  match getUserByEmail s req.email req.tenantID with
  | .error _ => (.error (.msg "invalid credentials"), s)
  | .ok user =>
    if user.passwordHash == "" then (.error (.msg "invalid credentials"), s)
    else if !hashMatch user.passwordHash req.password then
      (.error (.msg "invalid credentials"), s)
    else if user.status != "ACTIVE" then (.error (.msg "user is not active"), s)
    else match getTenantByID s req.tenantID with
    | .error _ => (.error (.msg "tenant not found"), s)
    | .ok tenant =>
      if tenant.status != "ACTIVE" then (.error (.msg "tenant is not active"), s)
      else
        let roles := getRolesByUserID s user.id
        let permissions := aggregatePermissions s roles
        let accessToken := generateAccessToken user roles tenant permissions now cfg
        let rt : RefreshToken :=
          { token := newToken, userID := user.id, tenantID := req.tenantID,
            expiresAt := now + cfg.refreshTokenExpiry, revokedAt := none,
            createdAt := now }
        match saveRefreshToken s rt f.saveRefreshToken with
        | .error e => (.error e, s)
        | .ok s₁ =>
          let s₂ := createAuditLog s₁
            { actorID := user.id, tenantID := req.tenantID,
              action := "USER_LOGIN", target := user.id, createdAt := now }
            f.createAuditLog
          (.ok { accessToken := accessToken, refreshToken := newToken,
                 expiresIn := cfg.accessTokenLifeTime }, s₂)

/-- `authUseCase.RefreshToken`: fetch, validity checks (revoked, then
`time.Now().After(ExpiresAt)`), reload user and tenant, re-resolve roles
and permissions, issue a new access token, revoke the presented token,
save the new one. -/
def refreshToken (s : Store) (cfg : Config) (tokenValue : String)
    (now : Time) (newToken : String) (f : Faults) :
    Except Err LoginResponse × Store :=
  match getRefreshToken s tokenValue with
  | .error _ => (.error (.msg "refresh token not found"), s)
  | .ok rt =>
    if rt.revokedAt ≠ none then (.error (.msg "refresh token is revoked"), s)
    else if rt.expiresAt < now then (.error (.msg "refresh token is expired"), s)
    else match getUserByID s rt.userID with
    | .error _ => (.error (.msg "user not found"), s)
    | .ok user =>
      match getTenantByID s rt.tenantID with
      | .error _ => (.error (.msg "tenant not found"), s)
      | .ok tenant =>
        let roles := getRolesByUserID s user.id
        let permissions := aggregatePermissions s roles
        let accessToken := generateAccessToken user roles tenant permissions now cfg
        match revokeRefreshToken s tokenValue now with
        | .error e => (.error e, s)
        | .ok s₁ =>
          let newRT : RefreshToken :=
            { token := newToken, userID := rt.userID, tenantID := rt.tenantID,
              expiresAt := now + cfg.refreshTokenExpiry, revokedAt := none,
              createdAt := now }
          match saveRefreshToken s₁ newRT f.saveRefreshToken with
          | .error e => (.error e, s₁)
          | .ok s₂ =>
            (.ok { accessToken := accessToken, refreshToken := newToken,
                   expiresIn := cfg.accessTokenLifeTime }, s₂)

/-- `authUseCase.Logout`: revoke the presented token (propagating its
error), then a best-effort `USER_LOGOUT` audit write. -/
def logout (s : Store) (actorID tokenValue : String) (now : Time) (f : Faults) :
    Except Err Unit × Store :=
  match revokeRefreshToken s tokenValue now with
  | .error e => (.error e, s)
  | .ok s₁ =>
    let s₂ := createAuditLog s₁
      { actorID := actorID, tenantID := "", action := "USER_LOGOUT",
        target := tokenValue, createdAt := now }
      f.createAuditLog
    (.ok (), s₂)

/-- `userUseCase.DisableUser`: load the user, set status INACTIVE,
bulk-revoke the user's refresh tokens, best-effort audit write. -/
def disableUser (s : Store) (id actorID : String) (now : Time) (f : Faults) :
    Except Err Unit × Store :=
  match getUserByID s id with
  | .error e => (.error e, s)
  | .ok user =>
    match updateUserStatus s id "INACTIVE" with
    | .error e => (.error e, s)
    | .ok s₁ =>
      let s₂ := revokeAllRefreshTokensByUserID s₁ id now
      let s₃ := createAuditLog s₂
        { actorID := actorID, tenantID := user.tenantID,
          action := "USER_DISABLED", target := user.id, createdAt := now }
        f.createAuditLog
      (.ok (), s₃)

/-! ## Authorization middleware (`internal/middleware/auth_middleware.go`) -/

/-- `entity.AccessTokenClaims` in the build the middleware is written
against, carrying a list of role names (`Roles []string`). -/
structure MwAccessTokenClaims where
  sub : String
  tenantID : String
  email : String
  roles : List String
  tenantStatus : String
  expiresAt : Time
deriving DecidableEq, Repr

/-- `strings.Replace s pat "" 1` on character lists: remove the first
occurrence of `pat`. -/
def replaceFirstChars (pat : List Char) : List Char → List Char
  | [] => []
  | c :: rest =>
    if pat.isPrefixOf (c :: rest) then (c :: rest).drop pat.length
    else c :: replaceFirstChars pat rest

/-- `strings.Replace aH.AuthorizationHeader "Bearer " "" 1`. -/
def stripBearer (s : String) : String :=
  String.mk (replaceFirstChars "Bearer ".data s.data)

/-- The three ways a request leaves `RequiredToken`: a 401, a 403, or
`ctx.Next()` with the claims and tenant id set on the context. -/
inductive GateOutcome where
  | unauthorized (message : String)
  | forbidden
  | proceed (claims : MwAccessTokenClaims) (tenantID : String)
deriving DecidableEq, Repr

/-- `authMiddleware.RequiredToken roles`: bind the Authorization header
(absent → 401), strip the first `Bearer ` occurrence, verify the token
(failure → 401), then scan the required roles for one contained in the
caller's roles; when none matches — including when `roles` is empty —
respond 403, otherwise set claims and tenant id and continue. `verify`
stands for the injected `jwtService.VerifyAccessToken`. -/
def requiredToken (roles : List String) (authorizationHeader : Option String)
    (verify : String → Except Err MwAccessTokenClaims) : GateOutcome :=
  match authorizationHeader with
  | none => .unauthorized "Authorization header is required"
  | some header =>
    let token := stripBearer header
    match verify token with
    | .error _ => .unauthorized "Invalid access token"
    | .ok tokenClaim =>
      let validRole := roles.any (fun role => tokenClaim.roles.contains role)
      if !validRole then .forbidden
      else .proceed tokenClaim tokenClaim.tenantID

/-! ## Derived notions used by the claims -/

/-- The spec's error taxonomy coalesces the three refresh-token failure
causes into `InvalidRefreshToken`: "covers not-found/expired/revoked,
intentionally coalesced". This classifies the orchestrator's error values
accordingly. -/
def isInvalidRefreshTokenErr : Err → Bool
  | .msg s => s == "refresh token not found" || s == "refresh token is revoked"
      || s == "refresh token is expired"
  | .storage _ => false

/-- `claims[k].(string)` comma-ok assertion: the value when present with
the right type. -/
def strClaim (claims : List (String × Json)) (k : String) : Option String :=
  match lookupClaim claims k with
  | some (.str s) => some s
  | _ => none

/-- `claims[k].(float64)` comma-ok assertion. -/
def numClaim (claims : List (String × Json)) (k : String) : Option Time :=
  match lookupClaim claims k with
  | some (.num x) => some x
  | _ => none

/-- `claims[k].(bool)` comma-ok assertion. -/
def boolClaim (claims : List (String × Json)) (k : String) : Option Bool :=
  match lookupClaim claims k with
  | some (.bool b) => some b
  | _ => none

/-- `claims[k].([]interface\x7b\x7d)` comma-ok assertion. -/
def arrClaim (claims : List (String × Json)) (k : String) : Option (List Json) :=
  match lookupClaim claims k with
  | some (.arr xs) => some xs
  | _ => none

/-- Some row with this token value is stored. -/
def presentToken (s : Store) (v : String) : Bool :=
  s.refreshTokens.any (fun rt => rt.token == v)

/-- Every stored row with this token value carries a non-null
revocation timestamp. -/
def allRevoked (s : Store) (v : String) : Bool :=
  s.refreshTokens.all (fun rt => rt.token != v || rt.revokedAt.isSome)

/-- The token value is stored and every row holding it is revoked: the
state from which the orchestrator can never honor `v` again. -/
def deadToken (s : Store) (v : String) : Bool :=
  presentToken s v && allRevoked s v

/-- One invocation of a store-mutating operation of the service's
surface, with all of its external inputs (configuration, clock value,
generated token, injected faults). These are exactly the operations that
touch the `refresh_tokens` table. -/
inductive Op where
  | loginOp (cfg : Config) (hashMatch : String → String → Bool)
      (req : LoginRequestBody) (now : Time) (newToken : String) (f : Faults)
  | refreshOp (cfg : Config) (tokenValue : String) (now : Time)
      (newToken : String) (f : Faults)
  | logoutOp (actorID tokenValue : String) (now : Time) (f : Faults)
  | disableOp (id actorID : String) (now : Time) (f : Faults)

/-- The store after running an operation (its partial effects included
when it fails). -/
def applyOp (op : Op) (s : Store) : Store :=
  match op with
  | .loginOp cfg hm req now nt f => (login s cfg hm req now nt f).2
  | .refreshOp cfg v now nt f => (refreshToken s cfg v now nt f).2
  | .logoutOp actor v now f => (logout s actor v now f).2
  | .disableOp id actor now f => (disableUser s id actor now f).2

/-- The store after a sequence of operations. -/
def applyOps (ops : List Op) (s : Store) : Store :=
  ops.foldl (fun s op => applyOp op s) s

/-! ## Concrete data for witnesses and counterexamples -/

/-- An ACTIVE demonstration tenant. -/
def demoTenant : Tenant := ⟨"t1", "School One", "ACTIVE"⟩

/-- An ACTIVE demonstration user of tenant `t1`. -/
def demoUser : User := ⟨"u1", "t1", "a@x.com", "hash:secret", "ACTIVE"⟩

/-- A concrete stand-in for `bcrypt.CompareHashAndPassword`: the stored
hash of `p` is `"hash:" ++ p`. -/
def demoHashMatch : String → String → Bool := fun h p => h == "hash:" ++ p

/-- A store holding one active user with two roles that both map to the
same permission, and one live refresh token `tok1` expiring at time 100. -/
def demoStore : Store :=
  { users := [demoUser]
    tenants := [demoTenant]
    roles := [⟨"r1", "TENANT_ADMIN", "TENANT"⟩, ⟨"r2", "TEACHER", "TENANT"⟩]
    userRoles := [("u1", "r1"), ("u1", "r2")]
    permissions := [⟨"p1", "report.view", ""⟩]
    rolePermissions := [("r1", "p1"), ("r2", "p1")]
    refreshTokens := [⟨"tok1", "u1", "t1", 100, none, 0⟩]
    auditLogs := [] }

/-- Demonstration token configuration: 1800 s access lifetime, 7-day
refresh lifetime. -/
def demoCfg : Config := ⟨1800, "auth-service", 604800⟩

/-- A presented access token whose signature and expiry are fine and
whose claims hold only the three type-asserted fields — `role`,
`permissions`, `is_super_admin`, `iat` and `iss` are absent. -/
def demoBareToken : ParsedToken :=
  ⟨.hmac "HS256", [("sub", .str "u1"), ("tenant_id", .str "t1"), ("exp", .num 100)], true⟩

/-- Verified claims of an authenticated demonstration caller holding
role `TENANT_ADMIN`. -/
def demoMwClaims : MwAccessTokenClaims :=
  ⟨"u1", "t1", "a@x.com", ["TENANT_ADMIN"], "ACTIVE", 100⟩

/-- The response returned by the successful demonstration rotation of
`tok1` at time 50. -/
def demoRefreshResp : LoginResponse :=
  { accessToken :=
      { sub := "u1", tenantID := "t1", role := "TENANT_ADMIN",
        permissions := ["report.view", "report.view"], isSuperAdmin := false,
        expiresAt := 1850, issuedAt := 50, issuer := "auth-service" },
    refreshToken := "new1", expiresIn := 1800 }

/-- The response returned by the demonstration rotation of `tok1` at the
exact expiry instant 100. -/
def demoRefreshRespAt100 : LoginResponse :=
  { accessToken :=
      { sub := "u1", tenantID := "t1", role := "TENANT_ADMIN",
        permissions := ["report.view", "report.view"], isSuperAdmin := false,
        expiresAt := 1900, issuedAt := 100, issuer := "auth-service" },
    refreshToken := "new1", expiresIn := 1800 }

/-! ## Theorems -/

/-- When every stored row with value `v` is revoked, `RefreshToken` fails
with a not-found or revoked error — both of the invalid-refresh class. -/
theorem refresh_fails_of_allRevoked (s : Store) (cfg : Config) (v : String)
    (now : Time) (nt : String) (f : Faults) (h : allRevoked s v = true) :
    ∃ e, (refreshToken s cfg v now nt f).1 = .error e ∧ isInvalidRefreshTokenErr e = true := by
  unfold refreshToken getRefreshToken
  cases hf : s.refreshTokens.find? (fun rt => rt.token == v) with
  | none => exact ⟨.msg "refresh token not found", by simp [hf], rfl⟩
  | some rt =>
    have hmem := List.mem_of_find?_eq_some hf
    have hpred := List.find?_some hf
    have hall := List.all_eq_true.mp h rt hmem
    simp only [bne, hpred, Bool.not_true, Bool.false_or] at hall
    obtain ⟨t, ht⟩ := Option.isSome_iff_exists.mp hall
    refine ⟨.msg "refresh token is revoked", ?_, rfl⟩
    simp [hf, ht]

/-- A row-wise store update that preserves token values and never clears a
revocation preserves `deadToken`. -/
theorem deadToken_map (s : Store) (v : String) (f : RefreshToken → RefreshToken)
    (htok : ∀ rt, (f rt).token = rt.token)
    (hrev : ∀ rt, rt.revokedAt.isSome = true → ((f rt).revokedAt).isSome = true)
    (h : deadToken s v = true) :
    deadToken { s with refreshTokens := s.refreshTokens.map f } v = true := by
  unfold deadToken presentToken allRevoked at *
  obtain ⟨hp, ha⟩ := Bool.and_eq_true_iff.mp h
  apply Bool.and_eq_true_iff.mpr
  constructor
  · obtain ⟨rt, hmem, hrt⟩ := List.any_eq_true.mp hp
    exact List.any_eq_true.mpr ⟨f rt, List.mem_map_of_mem f hmem, by simp [htok, hrt]⟩
  · apply List.all_eq_true.mpr
    intro x hx
    obtain ⟨rt, hmem, hfx⟩ := List.mem_map.mp hx
    subst hfx
    by_cases hv : rt.token = v
    · have := List.all_eq_true.mp ha rt hmem
      simp only [bne, hv, beq_self_eq_true, Bool.not_true, Bool.false_or] at this
      simp [hrev rt this]
    · simp [htok, bne, hv]

/-- A successful insert cannot resurrect a dead token value: the primary
key forbids inserting a second row with the same value. -/
theorem deadToken_save (s : Store) (v : String) (rt : RefreshToken) (fault : Bool)
    (s₁ : Store) (hok : saveRefreshToken s rt fault = .ok s₁)
    (h : deadToken s v = true) : deadToken s₁ v = true := by
  unfold saveRefreshToken at hok
  split at hok
  · cases hok
  · rename_i hf
    split at hok
    · cases hok
    · rename_i hdup
      cases hok
      unfold deadToken presentToken allRevoked at *
      obtain ⟨hp, ha⟩ := Bool.and_eq_true_iff.mp h
      have hne : (rt.token == v) = false := by
        by_contra hcon
        apply hdup
        obtain ⟨x, hxmem, hxv⟩ := List.any_eq_true.mp hp
        refine List.any_eq_true.mpr ⟨x, hxmem, ?_⟩
        have hveq : rt.token = v := by
          cases hb : (rt.token == v) with
          | true => exact eq_of_beq hb
          | false => exact absurd hb hcon
        rw [eq_of_beq hxv, hveq]
        exact beq_self_eq_true v
      apply Bool.and_eq_true_iff.mpr
      refine ⟨?_, ?_⟩
      · obtain ⟨x, hxmem, hxv⟩ := List.any_eq_true.mp hp
        exact List.any_eq_true.mpr ⟨x, by simp [hxmem], hxv⟩
      · apply List.all_eq_true.mpr
        intro x hx
        simp only [List.mem_append, List.mem_singleton] at hx
        cases hx with
        | inl hmem => exact List.all_eq_true.mp ha x hmem
        | inr heq => subst heq; simp [bne, hne]

/-- Revoking any token value preserves `deadToken`. -/
theorem deadToken_revoke (s : Store) (v w : String) (now : Time) (s₁ : Store)
    (hok : revokeRefreshToken s w now = .ok s₁)
    (h : deadToken s v = true) : deadToken s₁ v = true := by
  unfold revokeRefreshToken at hok
  split at hok
  · rename_i hp
    cases hok
    apply deadToken_map s v _ ?_ ?_ h
    · intro rt
      by_cases hw : (rt.token == w) = true <;> simp [hw]
    · intro rt hrt
      by_cases hw : (rt.token == w) = true <;> simp [hw, hrt]
  · cases hok

/-- Bulk revocation preserves `deadToken`. -/
theorem deadToken_revokeAll (s : Store) (v uid : String) (now : Time)
    (h : deadToken s v = true) :
    deadToken (revokeAllRefreshTokensByUserID s uid now) v = true := by
  unfold revokeAllRefreshTokensByUserID
  apply deadToken_map s v _ ?_ ?_ h
  · intro rt
    by_cases hc : (rt.userID == uid && rt.revokedAt == none) = true <;> simp [hc]
  · intro rt hrt
    by_cases hc : (rt.userID == uid && rt.revokedAt == none) = true <;> simp [hc, hrt]

/-- `deadToken` only depends on the refresh-token table. -/
theorem deadToken_of_tokens_eq (s s₁ : Store) (v : String)
    (htok : s₁.refreshTokens = s.refreshTokens)
    (h : deadToken s v = true) : deadToken s₁ v = true := by
  unfold deadToken presentToken allRevoked at *
  rw [htok]
  exact h

/-- Audit writes do not touch the refresh-token table. -/
theorem deadToken_audit (s : Store) (v : String) (e : AuditLog) (fault : Bool)
    (h : deadToken s v = true) : deadToken (createAuditLog s e fault) v = true := by
  unfold createAuditLog
  split
  · exact h
  · exact deadToken_of_tokens_eq s _ v rfl h

/-- Every service operation preserves `deadToken`: no operation deletes a
row, clears a revocation, or re-inserts an existing token value. -/
theorem deadToken_applyOp (op : Op) (s : Store) (v : String)
    (h : deadToken s v = true) : deadToken (applyOp op s) v = true := by
  cases op with
  | loginOp cfg hm req now nt f =>
    show deadToken (login s cfg hm req now nt f).2 v = true
    unfold login
    split
    · exact h
    · split
      · exact h
      · split
        · exact h
        · split
          · exact h
          · split
            · exact h
            · split
              · exact h
              · dsimp only
                split
                · exact h
                · rename_i s₁ heq
                  exact deadToken_audit _ _ _ _ (deadToken_save _ _ _ _ _ heq h)
  | refreshOp cfg w now nt f =>
    show deadToken (refreshToken s cfg w now nt f).2 v = true
    unfold refreshToken
    split
    · exact h
    · split
      · exact h
      · split
        · exact h
        · split
          · exact h
          · split
            · exact h
            · dsimp only
              split
              · exact h
              · rename_i s₁ heq
                split
                · exact deadToken_revoke _ _ _ _ _ heq h
                · rename_i s₂ heq₂
                  exact deadToken_save _ _ _ _ _ heq₂ (deadToken_revoke _ _ _ _ _ heq h)
  | logoutOp actor w now f =>
    show deadToken (logout s actor w now f).2 v = true
    unfold logout
    split
    · exact h
    · rename_i s₁ heq
      exact deadToken_audit _ _ _ _ (deadToken_revoke _ _ _ _ _ heq h)
  | disableOp id actor now f =>
    show deadToken (disableUser s id actor now f).2 v = true
    unfold disableUser
    split
    · exact h
    · rename_i user heq₀
      split
      · exact h
      · rename_i s₁ heq
        have htokeq : s₁.refreshTokens = s.refreshTokens := by
          unfold updateUserStatus at heq
          split at heq
          · cases heq; rfl
          · cases heq
        exact deadToken_audit _ _ _ _
          (deadToken_revokeAll _ _ _ _ (deadToken_of_tokens_eq s s₁ v htokeq h))

/-- `deadToken` is preserved by arbitrary operation sequences. -/
theorem deadToken_applyOps (ops : List Op) (s : Store) (v : String)
    (h : deadToken s v = true) : deadToken (applyOps ops s) v = true := by
  induction ops generalizing s with
  | nil => exact h
  | cons op rest ih => exact ih (applyOp op s) (deadToken_applyOp op s v h)

/-- Successfully revoking value `v` itself leaves `v` dead. -/
theorem deadToken_revoke_self (s : Store) (v : String) (now : Time) (s₁ : Store)
    (hok : revokeRefreshToken s v now = .ok s₁) : deadToken s₁ v = true := by
  unfold revokeRefreshToken at hok
  split at hok
  · rename_i hp
    cases hok
    unfold deadToken presentToken allRevoked
    apply Bool.and_eq_true_iff.mpr
    constructor
    · obtain ⟨rt, hmem, hrt⟩ := List.any_eq_true.mp hp
      refine List.any_eq_true.mpr ⟨_, List.mem_map_of_mem _ hmem, ?_⟩
      simp [hrt]
    · apply List.all_eq_true.mpr
      intro x hx
      obtain ⟨rt, hmem, hfx⟩ := List.mem_map.mp hx
      subst hfx
      by_cases hv : (rt.token == v) = true
      · simp [hv]
      · simp [bne, hv]
  · cases hok

/-- A successful rotation leaves the presented value dead in the final
store: it is revoked, and the freshly inserted successor has a different
value (the insert would have failed otherwise). -/
theorem deadToken_refresh_ok (s : Store) (cfg : Config) (v : String) (now : Time)
    (nt : String) (f : Faults) (resp : LoginResponse)
    (h : (refreshToken s cfg v now nt f).1 = .ok resp) :
    deadToken (refreshToken s cfg v now nt f).2 v = true := by
  have main : ∀ res : Except Err LoginResponse × Store,
      refreshToken s cfg v now nt f = res → res.1 = .ok resp →
      deadToken res.2 v = true := by
    intro res hres hok
    unfold refreshToken at hres
    split at hres
    · subst hres; simp at hok
    · split at hres
      · subst hres; simp at hok
      · split at hres
        · subst hres; simp at hok
        · split at hres
          · subst hres; simp at hok
          · split at hres
            · subst hres; simp at hok
            · dsimp only at hres
              split at hres
              · subst hres; simp at hok
              · rename_i s₁ heq
                split at hres
                · subst hres; simp at hok
                · rename_i s₂ heq₂
                  subst hres
                  exact deadToken_save _ _ _ _ _ heq₂ (deadToken_revoke_self _ _ _ _ heq)
  exact main _ rfl h

/-- A successful `DisableUser` leaves every stored token of that user
dead. -/
theorem deadToken_disable (s : Store) (id actor : String) (now : Time) (f : Faults)
    (v : String)
    (hpres : presentToken s v = true)
    (hown : s.refreshTokens.all (fun rt => rt.token != v || rt.userID == id) = true)
    (h : (disableUser s id actor now f).1 = .ok ()) :
    deadToken (disableUser s id actor now f).2 v = true := by
  have main : ∀ res : Except Err Unit × Store,
      disableUser s id actor now f = res → res.1 = .ok () →
      deadToken res.2 v = true := by
    intro res hres hok
    unfold disableUser at hres
    split at hres
    · subst hres; simp at hok
    · rename_i user heq₀
      split at hres
      · subst hres; simp at hok
      · rename_i s₁ heq
        subst hres
        have htokeq : s₁.refreshTokens = s.refreshTokens := by
          unfold updateUserStatus at heq
          split at heq
          · cases heq; rfl
          · cases heq
        apply deadToken_audit
        unfold deadToken presentToken allRevoked
        unfold revokeAllRefreshTokensByUserID
        dsimp only
        rw [htokeq]
        apply Bool.and_eq_true_iff.mpr
        constructor
        · obtain ⟨rt, hmem, hrt⟩ := List.any_eq_true.mp hpres
          refine List.any_eq_true.mpr ⟨_, List.mem_map_of_mem _ hmem, ?_⟩
          by_cases hc : (rt.userID == id && rt.revokedAt == none) = true <;> simp [hc, hrt]
        · apply List.all_eq_true.mpr
          intro x hx
          obtain ⟨rt, hmem, hfx⟩ := List.mem_map.mp hx
          subst hfx
          by_cases hv : (rt.token == v) = true
          · have hu := List.all_eq_true.mp hown rt hmem
            simp only [bne, hv, Bool.not_true, Bool.false_or] at hu
            cases hrev : rt.revokedAt with
            | none => simp [hu, hrev, hv]
            | some t =>
              by_cases hc : (rt.userID == id && rt.revokedAt == none) = true <;>
                simp [hc, hrev, hv]
          · by_cases hc : (rt.userID == id && rt.revokedAt == none) = true <;>
              simp [hc, bne, hv]
  exact main _ rfl h

/-- C1: once a `RefreshToken` call presenting value `v` has succeeded, every
later `RefreshToken` call presenting the same value `v` — after any sequence
of further service operations — fails with an error of the spec's
`InvalidRefreshToken` class: the successful rotation revokes the presented
token, and a token whose every stored row carries a non-null revocation
timestamp is never honored again. -/
theorem refresh_rotation_single_use (s : Store) (cfg : Config) (v : String)
    (now : Time) (nt : String) (f : Faults) (resp : LoginResponse)
    (h : (refreshToken s cfg v now nt f).1 = .ok resp)
    (ops : List Op) (cfg' : Config) (now' : Time) (nt' : String) (f' : Faults) :
    ∃ e, (refreshToken (applyOps ops (refreshToken s cfg v now nt f).2)
            cfg' v now' nt' f').1 = .error e ∧ isInvalidRefreshTokenErr e = true := by
  have hdead := deadToken_refresh_ok s cfg v now nt f resp h
  have hdead' := deadToken_applyOps ops _ v hdead
  exact refresh_fails_of_allRevoked _ cfg' v now' nt' f'
    (Bool.and_eq_true_iff.mp hdead').2


theorem refresh_rotation_single_use_witness :
    ∃ e, (refreshToken (applyOps [] (refreshToken demoStore demoCfg "tok1" 50 "new1" Faults.none).2)
            demoCfg "tok1" 60 "new2" Faults.none).1 = .error e ∧
          isInvalidRefreshTokenErr e = true :=
  refresh_rotation_single_use demoStore demoCfg "tok1" 50 "new1" Faults.none
    demoRefreshResp (by rfl) [] demoCfg 60 "new2" Faults.none

/-- C8: after `DisableUser` succeeds for user `u`, every later
`RefreshToken` call — after any sequence of further service operations —
presenting a token stored for `u` fails with an error of the spec's
`InvalidRefreshToken` class: the disable bulk-revokes all of the user's
outstanding refresh tokens. -/
theorem disable_user_invalidates_refresh (s : Store) (id actor : String) (now : Time)
    (f : Faults) (v : String)
    (hpres : presentToken s v = true)
    (hown : s.refreshTokens.all (fun rt => rt.token != v || rt.userID == id) = true)
    (h : (disableUser s id actor now f).1 = .ok ())
    (ops : List Op) (cfg' : Config) (now' : Time) (nt' : String) (f' : Faults) :
    ∃ e, (refreshToken (applyOps ops (disableUser s id actor now f).2)
            cfg' v now' nt' f').1 = .error e ∧ isInvalidRefreshTokenErr e = true := by
  have hdead := deadToken_disable s id actor now f v hpres hown h
  have hdead' := deadToken_applyOps ops _ v hdead
  exact refresh_fails_of_allRevoked _ cfg' v now' nt' f'
    (Bool.and_eq_true_iff.mp hdead').2

theorem disable_user_invalidates_refresh_witness :
    ∃ e, (refreshToken (applyOps [] (disableUser demoStore "u1" "admin" 30 Faults.none).2)
            demoCfg "tok1" 40 "new1" Faults.none).1 = .error e ∧
          isInvalidRefreshTokenErr e = true :=
  disable_user_invalidates_refresh demoStore "u1" "admin" 30 Faults.none "tok1"
    (by decide) (by decide) (by rfl) [] demoCfg 40 "new1" Faults.none

/-- A successful parse returns exactly the presented claim map. -/
theorem parseWithClaims_ok_claims (tok : ParsedToken) (now : Time)
    (claims : List (String × Json)) (h : parseWithClaims tok now = .ok claims) :
    claims = tok.claims := by
  unfold parseWithClaims at h
  split at h
  · cases h
  · split at h
    · split at h
      · split at h
        · cases h; rfl
        · cases h
      · cases h
      · cases h; rfl
    · cases h

/-- C3 (amended): `VerifyAccessToken` rejects tokens whose algorithm is
outside the HMAC family and rejects a missing or mistyped `sub`,
`tenant_id` or `exp`; but when verification succeeds, a missing or
mistyped `role`, `permissions`, `is_super_admin`, `iat` or `iss` is
silently defaulted to `""`, `[]`, `false`, `0`, `""` instead of being
rejected. -/
theorem verify_typechecks_sub_tenant_exp_only (tok : ParsedToken) (now : Time) :
    ((∃ n, tok.alg = .other n) → ∃ e, verifyAccessToken tok now = .error e) ∧
    (strClaim tok.claims "sub" = none → ∃ e, verifyAccessToken tok now = .error e) ∧
    (strClaim tok.claims "tenant_id" = none → ∃ e, verifyAccessToken tok now = .error e) ∧
    (numClaim tok.claims "exp" = none → ∃ e, verifyAccessToken tok now = .error e) ∧
    (∀ c, verifyAccessToken tok now = .ok c →
      (strClaim tok.claims "role" = none → c.role = "") ∧
      (arrClaim tok.claims "permissions" = none → c.permissions = []) ∧
      (boolClaim tok.claims "is_super_admin" = none → c.isSuperAdmin = false) ∧
      (numClaim tok.claims "iat" = none → c.issuedAt = 0) ∧
      (strClaim tok.claims "iss" = none → c.issuer = "")) := by
  refine ⟨?_, ?_, ?_, ?_, ?_⟩
  · rintro ⟨n, halg⟩
    unfold verifyAccessToken parseWithClaims
    rw [halg]
    exact ⟨_, rfl⟩
  · intro hsub
    unfold verifyAccessToken
    cases hp : parseWithClaims tok now with
    | error e => exact ⟨e, rfl⟩
    | ok claims =>
      have hc := parseWithClaims_ok_claims tok now claims hp
      subst hc
      unfold strClaim at hsub
      dsimp only
      split
      · rename_i sub hsubeq
        rw [hsubeq] at hsub
        simp at hsub
      · exact ⟨_, rfl⟩
  · intro htid
    unfold verifyAccessToken
    cases hp : parseWithClaims tok now with
    | error e => exact ⟨e, rfl⟩
    | ok claims =>
      have hc := parseWithClaims_ok_claims tok now claims hp
      subst hc
      unfold strClaim at htid
      dsimp only
      split
      · split
        · rename_i tid htideq
          rw [htideq] at htid
          simp at htid
        · exact ⟨_, rfl⟩
      · exact ⟨_, rfl⟩
  · intro hexp
    unfold verifyAccessToken
    cases hp : parseWithClaims tok now with
    | error e => exact ⟨e, rfl⟩
    | ok claims =>
      have hc := parseWithClaims_ok_claims tok now claims hp
      subst hc
      unfold numClaim at hexp
      dsimp only
      split
      · split
        · split
          · rename_i e hexpeq
            rw [hexpeq] at hexp
            simp at hexp
          · exact ⟨_, rfl⟩
        · exact ⟨_, rfl⟩
      · exact ⟨_, rfl⟩
  · intro c hok
    unfold verifyAccessToken at hok
    cases hp : parseWithClaims tok now with
    | error e => rw [hp] at hok; cases hok
    | ok claims =>
      have hc := parseWithClaims_ok_claims tok now claims hp
      subst hc
      rw [hp] at hok
      dsimp only at hok
      split at hok
      · split at hok
        · split at hok
          · cases hok
            refine ⟨?_, ?_, ?_, ?_, ?_⟩
            · intro hrole
              unfold strClaim at hrole
              dsimp only
              split
              · rename_i r hreq
                rw [hreq] at hrole
                simp at hrole
              · rfl
            · intro hperms
              unfold arrClaim at hperms
              dsimp only
              split
              · rename_i xs hxeq
                rw [hxeq] at hperms
                simp at hperms
              · rfl
            · intro hsup
              unfold boolClaim at hsup
              dsimp only
              split
              · rename_i b hbeq
                rw [hbeq] at hsup
                simp at hsup
              · rfl
            · intro hiat
              unfold numClaim at hiat
              dsimp only
              split
              · rename_i x hxeq
                rw [hxeq] at hiat
                simp at hiat
              · rfl
            · intro hiss
              unfold strClaim at hiss
              dsimp only
              split
              · rename_i x hxeq
                rw [hxeq] at hiss
                simp at hiss
              · rfl
          · cases hok
        · cases hok
      · cases hok

/-- C3 counterexample: a token with valid signature and expiry whose
`role`, `permissions`, `is_super_admin`, `iat` and `iss` claims are all
missing is accepted with those fields defaulted to zero values, not
rejected as `InvalidToken` as the claim states. -/
theorem verify_defaults_missing_claim_fields :
    verifyAccessToken demoBareToken 10
      = .ok { sub := "u1", tenantID := "t1", role := "", permissions := [],
              isSuperAdmin := false, expiresAt := 100, issuedAt := 0, issuer := "" } := rfl

/-- Witness for C3's amended theorem: a token missing `sub` is rejected. -/
theorem verify_typechecks_witness :
    ∃ e, verifyAccessToken ⟨.hmac "HS256", [("tenant_id", .str "t1"), ("exp", .num 100)], true⟩ 10
      = .error e :=
  (verify_typechecks_sub_tenant_exp_only
      ⟨.hmac "HS256", [("tenant_id", .str "t1"), ("exp", .num 100)], true⟩ 10).2.1 rfl

/-- C4 (amended): for a request whose access token verifies successfully,
the Gate proceeds exactly when the required-role set is non-empty and some
required role is among the caller's roles; in particular an empty
required-role set makes every request — even an authenticated one — end
in `Forbidden`, not proceed. -/
theorem gate_role_check (roles : List String) (header : String)
    (verify : String → Except Err MwAccessTokenClaims) (c : MwAccessTokenClaims)
    (h : verify (stripBearer header) = .ok c) :
    requiredToken roles (some header) verify =
      (if roles.any (fun role => c.roles.contains role) then .proceed c c.tenantID
       else .forbidden) := by
  unfold requiredToken
  dsimp only
  rw [h]
  dsimp only
  cases hval : roles.any (fun role => c.roles.contains role) <;> simp [hval]

/-- C4 counterexample: with an empty required-role set and a token that
verifies successfully, `RequiredToken` answers `Forbidden` rather than
letting the authenticated caller proceed as the claim states. -/
theorem gate_empty_required_set_forbids :
    requiredToken [] (some "Bearer x") (fun _ => .ok demoMwClaims) = .forbidden := rfl

/-- Witness for C4's amended theorem at a concrete verifier and header. -/
theorem gate_role_check_witness :
    requiredToken ["TENANT_ADMIN"] (some "Bearer x") (fun _ => .ok demoMwClaims) =
      (if ["TENANT_ADMIN"].any (fun role => demoMwClaims.roles.contains role)
       then .proceed demoMwClaims demoMwClaims.tenantID else .forbidden) :=
  gate_role_check ["TENANT_ADMIN"] "Bearer x" (fun _ => .ok demoMwClaims) demoMwClaims rfl

/-- C5 (amended): the permission aggregation of `Login`/`RefreshToken` is
the concatenation of each role's permission codes — as a set of codes it
is the union over the user's roles, but duplicates are not collapsed:
membership coincides with the union, the empty role list yields the empty
result, and the success of `Login` is independent of the role/permission
mapping tables (so a user with no roles is not an error). -/
theorem aggregate_permissions_semantics (s : Store) (roles : List Role) :
    (∀ p : String, p ∈ aggregatePermissions s roles ↔
        ∃ r ∈ roles, ∃ q ∈ getPermissionsByRoleID s r.id, q.code = p) ∧
    (roles = [] → aggregatePermissions s roles = []) ∧
    (∀ cfg hm req now nt f ur rp ps,
        ((login { s with userRoles := ur, rolePermissions := rp, permissions := ps }
            cfg hm req now nt f).1).isOk = ((login s cfg hm req now nt f).1).isOk) := by
  refine ⟨?_, ?_, ?_⟩
  · intro p
    unfold aggregatePermissions
    simp [List.mem_flatMap, List.mem_map]
  · intro h
    subst h
    rfl
  · intro cfg hm req now nt f ur rp ps
    unfold login getUserByEmail getTenantByID saveRefreshToken
    dsimp only
    split
    · rfl
    · split
      · rfl
      · split
        · rfl
        · split
          · rfl
          · split
            · rfl
            · split
              · rfl
              · by_cases hf1 : f.saveRefreshToken = true
                · simp [hf1]
                · by_cases hdup : (s.refreshTokens.any fun r => r.token == nt) = true
                  · simp [hf1, hdup]
                  · simp only [hf1, hdup, Bool.false_eq_true, if_false]
                    rfl

/-- C5 counterexample: a user with two roles mapped to the same permission
logs in successfully and the issued token carries the code twice — the
aggregation does not collapse duplicates as the claim states. -/
theorem login_permissions_duplicated :
    ((login demoStore demoCfg demoHashMatch ⟨"a@x.com", "secret", "t1"⟩ 10 "new1"
        Faults.none).1).map (fun r => r.accessToken.permissions)
      = .ok ["report.view", "report.view"] ∧
    ¬ (["report.view", "report.view"] : List String).Nodup := ⟨rfl, by decide⟩

/-- Witness for C5's amended theorem at concrete stores and role lists. -/
theorem aggregate_permissions_semantics_witness :
    ("report.view" ∈ aggregatePermissions demoStore [⟨"r1", "TENANT_ADMIN", "TENANT"⟩] ↔
      ∃ r ∈ [(⟨"r1", "TENANT_ADMIN", "TENANT"⟩ : Role)],
        ∃ q ∈ getPermissionsByRoleID demoStore r.id, q.code = "report.view") ∧
    aggregatePermissions demoStore [] = [] :=
  ⟨(aggregate_permissions_semantics demoStore [⟨"r1", "TENANT_ADMIN", "TENANT"⟩]).1 "report.view",
   (aggregate_permissions_semantics demoStore []).2.1 rfl⟩

/-- C6 (amended): `RefreshToken` honors a presented token only when it
exists, its `revokedAt` is null and `now ≤ expiresAt` — the rejection
test is `now > expiresAt` (`time.Now().After`), so a refresh at the exact
instant `now = expiresAt` is still honored, not rejected. -/
theorem refresh_honors_only_live_tokens (s : Store) (cfg : Config) (v : String)
    (now : Time) (nt : String) (f : Faults) (resp : LoginResponse)
    (h : (refreshToken s cfg v now nt f).1 = .ok resp) :
    ∃ rt, getRefreshToken s v = .ok rt ∧ rt.revokedAt = none ∧ now ≤ rt.expiresAt := by
  unfold refreshToken at h
  split at h
  · simp at h
  · rename_i rt hget
    split at h
    · simp at h
    · rename_i hrev
      split at h
      · simp at h
      · rename_i hexp
        refine ⟨rt, hget, ?_, ?_⟩
        · exact not_ne_iff.mp hrev
        · exact Int.not_lt.mp hexp


/-- Witness for C6's amended theorem: a refresh succeeding at the exact
expiry instant of `tok1`. -/
theorem refresh_honors_only_live_tokens_witness :
    ∃ rt, getRefreshToken demoStore "tok1" = .ok rt ∧ rt.revokedAt = none ∧
      (100 : Time) ≤ rt.expiresAt :=
  refresh_honors_only_live_tokens demoStore demoCfg "tok1" 100 "new1" Faults.none
    demoRefreshRespAt100 rfl

/-- C6 counterexample: a refresh presented at exactly `now = expiresAt`
succeeds, contradicting the claim that it is rejected as invalid. -/
theorem refresh_at_expiry_instant_honored :
    ((refreshToken demoStore demoCfg "tok1" 100 "new1" Faults.none).1).isOk = true := rfl

/-- C7: `Login` returns the identical `invalid credentials` error value
both when no user exists for the given email and tenant (including a
correct email/password under a different tenant id) and when the user
exists but the password does not match, so the two failure causes are
indistinguishable to the caller. -/
theorem login_failure_causes_indistinguishable (s : Store) (cfg : Config)
    (hm : String → String → Bool) (req : LoginRequestBody) (now : Time)
    (nt : String) (f : Faults) :
    ((getUserByEmail s req.email req.tenantID).isOk = false →
      (login s cfg hm req now nt f).1 = .error (.msg "invalid credentials")) ∧
    (∀ user, getUserByEmail s req.email req.tenantID = .ok user →
      hm user.passwordHash req.password = false →
      (login s cfg hm req now nt f).1 = .error (.msg "invalid credentials")) := by
  constructor
  · intro hno
    unfold login
    cases hu : getUserByEmail s req.email req.tenantID with
    | error e => rfl
    | ok user => rw [hu] at hno; simp [Except.isOk, Except.toBool] at hno
  · intro user hu hmf
    unfold login
    rw [hu]
    dsimp only
    by_cases hpw : (user.passwordHash == "") = true
    · simp [hpw]
    · simp [hpw, hmf]

/-- Witness for C7: a wrong-tenant login and a wrong-password login both
produce the same `invalid credentials` error on the demonstration store. -/
theorem login_failure_causes_indistinguishable_witness :
    (login demoStore demoCfg demoHashMatch ⟨"a@x.com", "secret", "t2"⟩ 10 "n" Faults.none).1
        = .error (.msg "invalid credentials") ∧
    (login demoStore demoCfg demoHashMatch ⟨"a@x.com", "wrong", "t1"⟩ 10 "n" Faults.none).1
        = .error (.msg "invalid credentials") :=
  ⟨(login_failure_causes_indistinguishable demoStore demoCfg demoHashMatch
      ⟨"a@x.com", "secret", "t2"⟩ 10 "n" Faults.none).1 rfl,
   (login_failure_causes_indistinguishable demoStore demoCfg demoHashMatch
      ⟨"a@x.com", "wrong", "t1"⟩ 10 "n" Faults.none).2 demoUser rfl rfl⟩

/-- C9: the caller-visible result of `Login` is identical whether the
`USER_LOGIN` audit write succeeds or fails — a failed audit write never
turns a successful login into an error (nor changes any error). -/
theorem login_audit_write_best_effort (s : Store) (cfg : Config)
    (hm : String → String → Bool) (req : LoginRequestBody) (now : Time)
    (nt : String) (sf b₁ b₂ : Bool) :
    (login s cfg hm req now nt ⟨sf, b₁⟩).1 = (login s cfg hm req now nt ⟨sf, b₂⟩).1 := by
  unfold login
  dsimp only
  split
  · rfl
  · split
    · rfl
    · split
      · rfl
      · split
        · rfl
        · split
          · rfl
          · split
            · rfl
            · split
              · rfl
              · rfl

/-- C2: concrete run refuting atomicity of the rotation. When revoking the
presented token succeeds but persisting the successor fails with a storage
error, `RefreshToken` does report the storage error, but the store is left
exactly in the partial state the claim rules out: the old token is revoked
(`revokedAt = some 50`) and no successor token was persisted. -/
theorem rotation_partial_state_on_save_failure :
    (refreshToken demoStore demoCfg "tok1" 50 "new1" ⟨true, false⟩).1
        = .error (.storage "insert refresh token failed") ∧
    (refreshToken demoStore demoCfg "tok1" 50 "new1" ⟨true, false⟩).2.refreshTokens
        = [⟨"tok1", "u1", "t1", 100, some 50, 0⟩] := ⟨rfl, rfl⟩

/-- `Logout` succeeds whenever some row holds the presented value. -/
theorem logout_ok_of_present (s : Store) (actor v : String) (now : Time) (f : Faults)
    (hp : presentToken s v = true) : (logout s actor v now f).1 = .ok () := by
  unfold logout revokeRefreshToken
  unfold presentToken at hp
  simp [hp]

/-- `Logout` never deletes rows, so presence is preserved. -/
theorem presentToken_logout (s : Store) (actor w : String) (now : Time) (f : Faults)
    (v : String) (hp : presentToken s v = true) :
    presentToken (logout s actor w now f).2 v = true := by
  unfold logout
  split
  · exact hp
  · rename_i s₁ heq
    unfold revokeRefreshToken at heq
    split at heq
    · cases heq
      unfold presentToken at hp ⊢
      unfold createAuditLog
      obtain ⟨rt, hmem, hrt⟩ := List.any_eq_true.mp hp
      have hmem₂ : ((s.refreshTokens.map (fun rt => if rt.token == w then { rt with revokedAt := some now } else rt)).any (fun rt => rt.token == v)) = true := by
        refine List.any_eq_true.mpr ⟨_, List.mem_map_of_mem _ hmem, ?_⟩
        by_cases hw : (rt.token == w) = true <;> simp [hw, hrt]
      split
      · dsimp only
        exact hmem₂
      · dsimp only
        exact hmem₂
    · cases heq

/-- C10: `Logout` with a token value that has no stored row fails with the
repository's `refresh token not found` error (zero rows affected), while
logging out an existing token twice succeeds both times — revocation is
idempotent only across tokens that exist. -/
theorem logout_not_found_vs_idempotent (s : Store) (actor v : String)
    (now now' : Time) (f f' : Faults) :
    (presentToken s v = false →
      (logout s actor v now f).1 = .error (.msg "refresh token not found")) ∧
    (presentToken s v = true →
      (logout s actor v now f).1 = .ok () ∧
      (logout (logout s actor v now f).2 actor v now' f').1 = .ok ()) := by
  constructor
  · intro hp
    unfold logout revokeRefreshToken
    unfold presentToken at hp
    simp [hp]
  · intro hp
    exact ⟨logout_ok_of_present s actor v now f hp,
      logout_ok_of_present _ actor v now' f' (presentToken_logout s actor v now f v hp)⟩

/-- Witness for C10: a never-stored value fails, a stored one revokes
twice without error. -/
theorem logout_not_found_vs_idempotent_witness :
    (logout demoStore "u1" "missing" 10 Faults.none).1
        = .error (.msg "refresh token not found") ∧
    ((logout demoStore "u1" "tok1" 10 Faults.none).1 = .ok () ∧
      (logout (logout demoStore "u1" "tok1" 10 Faults.none).2 "u1" "tok1" 20 Faults.none).1
        = .ok ()) :=
  ⟨(logout_not_found_vs_idempotent demoStore "u1" "missing" 10 20 Faults.none Faults.none).1
      (by decide),
   (logout_not_found_vs_idempotent demoStore "u1" "tok1" 10 20 Faults.none Faults.none).2
      (by decide)⟩

end AuthService
